import Mathlib

/-!
Shallow embedding of `src/survey/views.py` (django-auth-review), the single
source file of the repository: a Django survey application.  Each HTTP
handler that the claims touch is translated into an executable Lean
function over explicit data; database rows become lists, `request.POST`
becomes a lookup function, and the Django transaction-savepoint API is
given its documented semantics (rows created after the savepoint are
discarded on rollback and kept on commit).
-/

namespace SurveyApp

/-! ## Response submission: `SurveyAssignmentView.post` (views.py 137-163)

The handler opens a savepoint, iterates the assignment's survey questions
in order, and for each question looks for the POST field
`question_{id}`.  A missing field sets a validation error and breaks the
loop; otherwise the submitted choice id is looked up with
`get_object_or_404` (raising `Http404` when absent) and a
`SurveyResponse` row is created.  After the loop a set validation error
rolls back and re-renders the form; otherwise the savepoint is
committed.  The bare `except:` catches any exception (including the
`Http404`), rolls back, and falls through to the profile redirect. -/

/-- A `SurveyResponse` row as created by the handler: the assignment id
(`survey_assigned`), the question id and the choice id. -/
structure ResponseRow where
  survey_assigned : Nat
  question : Nat
  choice : Nat
deriving DecidableEq, Repr

/-- Result of the per-question loop body: either the loop ran to
completion or broke (`completed`, with the rows created so far and
whether `context['validation_error']` was set), or `get_object_or_404`
raised `Http404` out of the loop (`raised`). -/
inductive LoopResult where
  | completed (rows : List ResponseRow) (validationError : Bool)
  | raised (rows : List ResponseRow)
deriving DecidableEq, Repr

/-- The `for question in self.obj.survey.questions.all():` loop of
`SurveyAssignmentView.post`.  `choicesDb` is the set of existing `Choice`
primary keys, `aid` the assignment id, `post q` the (already `int`-parsed)
value of the POST field `question_{q}` when present, `qs` the survey's
question ids in iteration order, and `rows` the rows created so far. -/
def responseLoop (choicesDb : List Nat) (aid : Nat) (post : Nat → Option Nat) :
    List Nat → List ResponseRow → LoopResult
  | [], rows => .completed rows false
  | q :: rest, rows =>
    match post q with
    | none => .completed rows true
    | some cid =>
      if cid ∈ choicesDb then
        responseLoop choicesDb aid post rest (rows ++ [⟨aid, q, cid⟩])
      else
        .raised rows

/-- Terminal HTTP outcome of `SurveyAssignmentView.post`. -/
inductive SubmitOutcome where
  | renderAssignmentForm
  | redirectProfile
  | notFound
deriving DecidableEq, Repr

/-- Net effect of one submission request: the `SurveyResponse` rows that
persist once the request completes, and the HTTP outcome. -/
structure SubmitResult where
  persisted : List ResponseRow
  outcome : SubmitOutcome
deriving DecidableEq, Repr

/-- `SurveyAssignmentView.post`: run the loop inside the savepoint, then
dispatch.  A set validation error rolls the savepoint back and re-renders
the form; a completed loop without error commits; an exception rolls back
and (after the `except:` block) the handler falls through to the profile
redirect.  Rollback discards every row created after the savepoint, so
the persisted rows are `[]` on both rollback paths. -/
def surveyAssignmentPost (choicesDb : List Nat) (aid : Nat) (qs : List Nat)
    (post : Nat → Option Nat) : SubmitResult :=
  match responseLoop choicesDb aid post qs [] with
  | .completed _ true => ⟨[], .renderAssignmentForm⟩
  | .completed rows false => ⟨rows, .redirectProfile⟩
  | .raised _ => ⟨[], .redirectProfile⟩

/-! ## Registration and confirmation: `RegisterView.post` (views.py 29-50)
and `ConfirmRegistrationView.get` (views.py 246-261)

The views use Django's built-in `django.contrib.auth.models.User`.  Its
model fields relevant here are `id`, `email` and `is_active` (default
`True`); the model has **no** `is_valid` field, so the assignments
`user.is_valid = False` / `True` in the source set a plain Python
attribute that `user.save()` does not persist (`save` writes model
fields only). -/

/-- The persisted columns of a Django `auth.User` row that the claims
mention.  `is_active` has model default `true`. -/
structure UserRecord where
  id : Nat
  email : String
  is_active : Bool
deriving DecidableEq, Repr

/-- The in-memory Python `User` instance the views manipulate: the model
fields plus the `is_valid` attribute the source assigns, which is not a
model field (`none` = never assigned). -/
structure UserInstance where
  fields : UserRecord
  is_valid : Option Bool
deriving DecidableEq, Repr

/-- `user.save()`: Django persists exactly the model fields; the
`is_valid` Python attribute is not among them and is dropped. -/
def saveUser (u : UserInstance) : UserRecord := u.fields

/-- Data of the registration form POST. -/
structure RegistrationFormData where
  username : String
  email : String
  password1 : String
  password2 : String
deriving DecidableEq, Repr

/-- Modelled from the spec: `RegistrationForm.is_valid()` lives in
`src/survey/forms.py`, which is not among the provided sources; per the
spec the form "validates required fields", so validity is: every
required field non-empty and the two passwords equal. -/
def registrationFormOk (f : RegistrationFormData) : Bool :=
  !(f.username == "") && !(f.email == "") && !(f.password1 == "")
    && f.password1 == f.password2

/-- Outcome of `RegisterView.post`: on a valid form the user row is
saved and the login page renders with a confirmation-sent message; on an
invalid form the registration form re-renders and nothing is saved. -/
inductive RegisterOutcome where
  | confirmationSent (persisted : UserRecord)
  | formErrors
deriving DecidableEq, Repr

/-- `RegisterView.post`: `form.save(commit=False)` builds a `User`
instance from the form with the model default `is_active = true`; the
view then assigns the non-field attribute `is_valid = False` and calls
`user.save()`.  `nextId` is the primary key the database assigns. -/
def registerPost (f : RegistrationFormData) (nextId : Nat) : RegisterOutcome :=
  if registrationFormOk f then
    let user : UserInstance :=
      { fields := { id := nextId, email := f.email, is_active := true },
        is_valid := none }
    let user : UserInstance := { user with is_valid := some false }
    .confirmationSent (saveUser user)
  else
    .formErrors

/-- Outcome of `ConfirmRegistrationView.get`: either the login page is
rendered (`activated = true` for the "Registration complete" message,
`false` for the generic confirmation-error message, together with the
row as saved, if any), or an exception escapes the handler
(`User.objects.get` raising `User.DoesNotExist` is not caught). -/
inductive ConfirmOutcome where
  | rendered (activated : Bool) (persisted : Option UserRecord)
  | unhandledException
deriving DecidableEq, Repr

/-- `ConfirmRegistrationView.get`.  `checkToken` stands for the external
`user_tokenizer.check_token`; `db` is the user table; `userId` is the
already base64-decoded id from the URL.  `User.objects.get(pk=user_id)`
raises `User.DoesNotExist` when no row matches, and the view has no
handler for it.  On a found user with a good token the view assigns the
non-field attribute `is_valid = True` and saves; `save` persists only
model fields, so the saved row equals the original. -/
def confirmRegistrationGet (checkToken : UserRecord → String → Bool)
    (db : List UserRecord) (userId : Nat) (token : String) : ConfirmOutcome :=
  match db.find? (fun u => u.id == userId) with
  | none => .unhandledException
  | some u =>
    if checkToken u token then
      .rendered true (some (saveUser { fields := u, is_valid := some true }))
    else
      .rendered false none

/-! ## Survey creation: `SurveyCreateView.post` (views.py 72-124)

The handler reads `title`, the list of question JSON strings, the
assignee ids and the reviewer ids from the POST data; an absent or empty
`title` (`not title`) and empty lists (`not questions_json`,
`not assignees`) each set `valid = False` and record a field error.  On
any error it re-renders the form with the collected errors and creates
nothing; otherwise it creates the `Survey`, then per submitted question
a `Question` row followed by one `Choice` row per submitted choice in
order, then one `SurveyAssignment` per assignee.  The question JSON is
parsed by the external `json` module; here the questions arrive already
structured. -/

/-- One submitted question object: its text and its choice texts in
submitted order. -/
structure QuestionData where
  text : String
  choices : List String
deriving DecidableEq, Repr

/-- The POST data of a survey-creation submission.  `title = ""` covers
both an absent and an empty title (both falsy for `not title`). -/
structure SurveyCreateRequest where
  title : String
  questions : List QuestionData
  assignees : List Nat
  reviewers : List Nat
deriving DecidableEq, Repr

/-- HTTP outcome of `SurveyCreateView.post`: re-render the creation form
with the per-field error flags, or redirect to the profile. -/
inductive CreateResponse where
  | renderErrors (titleError questionsError assigneesError : Bool)
  | redirectProfile
deriving DecidableEq, Repr

/-- Net effect of one survey-creation request: the response plus the
rows created, with each created `Question` row paired with its created
`Choice` texts in creation order. -/
structure CreateResult where
  response : CreateResponse
  createdSurveyTitles : List String
  createdQuestions : List (String × List String)
  createdAssignments : List Nat
deriving DecidableEq, Repr

/-- `SurveyCreateView.post`. -/
def surveyCreatePost (req : SurveyCreateRequest) : CreateResult :=
  let titleError := req.title == ""
  let questionsError := req.questions.isEmpty
  let assigneesError := req.assignees.isEmpty
  if titleError || questionsError || assigneesError then
    { response := .renderErrors titleError questionsError assigneesError,
      createdSurveyTitles := [],
      createdQuestions := [],
      createdAssignments := [] }
  else
    { response := .redirectProfile,
      createdSurveyTitles := [req.title],
      createdQuestions := req.questions.map (fun q => (q.text, q.choices)),
      createdAssignments := req.assignees }

/-! ## Results tally: `SurveyResultsView.get` (views.py 230-244) with
`QuestionViewModel` and `ChoiceResultViewModel` (views.py 205-220)

Per question the view builds a `QuestionViewModel`, appends one
`ChoiceResultViewModel(choice.id, choice.text)` — with the default
`responses = 0` — per defined choice, then feeds every `SurveyResponse`
row filtered to that question through `add_survey_response`, which scans
the view-model choices and increments the first one whose id equals the
response's choice id, breaking out of the scan. -/

/-- A `Choice` row: primary key and text. -/
structure ChoiceRow where
  id : Nat
  text : String
deriving DecidableEq, Repr

/-- A `Question` row together with its related choices, as iterated by
`self.obj.questions.all()` / `question.choices.all()`. -/
structure QuestionRec where
  id : Nat
  text : String
  choices : List ChoiceRow
deriving DecidableEq, Repr

/-- The fields of a `SurveyResponse` row the tally reads: the question
id it was filtered by and its choice id. -/
structure TallyResponseRow where
  question : Nat
  choice : Nat
deriving DecidableEq, Repr

/-- `ChoiceResultViewModel`: id, text and the running response count
(constructor default 0). -/
structure ChoiceResultViewModel where
  id : Nat
  text : String
  responses : Nat
deriving DecidableEq, Repr

/-- `QuestionViewModel`: the question text and its choice view models. -/
structure QuestionViewModel where
  text : String
  choices : List ChoiceResultViewModel
deriving DecidableEq, Repr

/-- `QuestionViewModel.add_survey_response`: scan the choice view models
in order; on the first whose `id` equals the response's choice id,
increment its `responses` and break.  No match leaves the list
unchanged. -/
def addSurveyResponse (cs : List ChoiceResultViewModel) (respChoiceId : Nat) :
    List ChoiceResultViewModel :=
  match cs with
  | [] => []
  | c :: rest =>
    if c.id = respChoiceId then
      { c with responses := c.responses + 1 } :: rest
    else
      c :: addSurveyResponse rest respChoiceId

/-- The per-question body of `SurveyResultsView.get`: initialize one
zero-count view model per defined choice, then fold the responses
filtered to this question through `add_survey_response`. -/
def tallyQuestion (q : QuestionRec) (responses : List TallyResponseRow) :
    QuestionViewModel :=
  let initial := q.choices.map (fun c => ChoiceResultViewModel.mk c.id c.text 0)
  let forQuestion := responses.filter (fun r => r.question == q.id)
  { text := q.text,
    choices := forQuestion.foldl (fun vm r => addSurveyResponse vm r.choice) initial }

/-- `SurveyResultsView.get`: the `questions` list handed to the results
template, one `QuestionViewModel` per survey question in order. -/
def surveyResultsGet (qs : List QuestionRec) (responses : List TallyResponseRow) :
    List QuestionViewModel :=
  qs.map (fun q => tallyQuestion q responses)

/-! ## Lemmas about the response-submission loop -/

/-- The row the handler creates for question `q` when `post q` is
`some cid` (the `getD` default is never reached in that case). -/
def submittedRow (aid : Nat) (post : Nat → Option Nat) (q : Nat) : ResponseRow :=
  ⟨aid, q, (post q).getD 0⟩

theorem responseLoop_all_answered (choicesDb : List Nat) (aid : Nat)
    (post : Nat → Option Nat) (qs : List Nat) (acc : List ResponseRow)
    (h : ∀ q ∈ qs, ∃ c, post q = some c ∧ c ∈ choicesDb) :
    responseLoop choicesDb aid post qs acc
      = .completed (acc ++ qs.map (submittedRow aid post)) false := by
  induction qs generalizing acc with
  | nil => simp [responseLoop]
  | cons q rest ih =>
    obtain ⟨c, hc, hmem⟩ := h q (by simp)
    simp only [responseLoop, hc, hmem, if_pos]
    rw [ih _ (fun q' hq' => h q' (by simp [hq']))]
    simp [submittedRow, hc]

theorem responseLoop_completed_false_inv (choicesDb : List Nat) (aid : Nat)
    (post : Nat → Option Nat) (qs : List Nat) (acc rows : List ResponseRow)
    (h : responseLoop choicesDb aid post qs acc = .completed rows false) :
    (∀ q ∈ qs, ∃ c, post q = some c ∧ c ∈ choicesDb)
      ∧ rows = acc ++ qs.map (submittedRow aid post) := by
  induction qs generalizing acc with
  | nil =>
    simp only [responseLoop, LoopResult.completed.injEq, and_true] at h
    refine ⟨by simp, ?_⟩
    simp [h.symm]
  | cons q rest ih =>
    cases hpost : post q with
    | none => simp [responseLoop, hpost] at h
    | some c =>
      by_cases hmem : c ∈ choicesDb
      · simp only [responseLoop, hpost, if_pos hmem] at h
        obtain ⟨hall, hrows⟩ := ih _ h
        refine ⟨?_, ?_⟩
        · intro q' hq'
          rcases List.mem_cons.mp hq' with rfl | hq'
          · exact ⟨c, hpost, hmem⟩
          · exact hall q' hq'
        · simpa [submittedRow, hpost] using hrows
      · simp [responseLoop, hpost, if_neg hmem] at h

theorem responseLoop_break (choicesDb : List Nat) (aid : Nat)
    (post : Nat → Option Nat) (qs₁ : List Nat) (q : Nat) (rest : List Nat)
    (acc : List ResponseRow)
    (h₁ : ∀ q' ∈ qs₁, ∃ c, post q' = some c ∧ c ∈ choicesDb)
    (hq : post q = none) :
    responseLoop choicesDb aid post (qs₁ ++ q :: rest) acc
      = .completed (acc ++ qs₁.map (submittedRow aid post)) true := by
  induction qs₁ generalizing acc with
  | nil => simp [responseLoop, hq]
  | cons q' qs ih =>
    obtain ⟨c, hc, hmem⟩ := h₁ q' (by simp)
    simp only [List.cons_append, responseLoop, hc, hmem, if_pos, List.append_eq]
    rw [ih _ (fun q'' hq'' => h₁ q'' (by simp [hq'']))]
    simp [submittedRow, hc]

theorem responseLoop_raise (choicesDb : List Nat) (aid : Nat)
    (post : Nat → Option Nat) (qs₁ : List Nat) (q c : Nat) (rest : List Nat)
    (acc : List ResponseRow)
    (h₁ : ∀ q' ∈ qs₁, ∃ c', post q' = some c' ∧ c' ∈ choicesDb)
    (hq : post q = some c) (hc : c ∉ choicesDb) :
    responseLoop choicesDb aid post (qs₁ ++ q :: rest) acc
      = .raised (acc ++ qs₁.map (submittedRow aid post)) := by
  induction qs₁ generalizing acc with
  | nil => simp [responseLoop, hq, hc]
  | cons q' qs ih =>
    obtain ⟨c', hc', hmem⟩ := h₁ q' (by simp)
    simp only [List.cons_append, responseLoop, hc', hmem, if_pos, List.append_eq]
    rw [ih _ (fun q'' hq'' => h₁ q'' (by simp [hq'']))]
    simp [submittedRow, hc']

/-! ## Lemmas about the tally -/

/-- Observation function on a choice view-model list: the `responses`
count of the first entry with the given id, `none` when no entry has
that id. -/
def choiceCount (cs : List ChoiceResultViewModel) (i : Nat) : Option Nat :=
  match cs with
  | [] => none
  | c :: rest => if c.id = i then some c.responses else choiceCount rest i

theorem tallyQuestion_choices (q : QuestionRec)
    (responses : List TallyResponseRow) :
    (tallyQuestion q responses).choices
      = (responses.filter (fun r => r.question == q.id)).foldl
          (fun vm r => addSurveyResponse vm r.choice)
          (q.choices.map (fun d => ChoiceResultViewModel.mk d.id d.text 0)) := rfl

theorem choiceCount_addSurveyResponse (cs : List ChoiceResultViewModel)
    (j i : Nat) :
    choiceCount (addSurveyResponse cs j) i
      = if i = j then (choiceCount cs i).map (· + 1) else choiceCount cs i := by
  induction cs with
  | nil => simp [choiceCount, addSurveyResponse]
  | cons c rest ih =>
    simp only [addSurveyResponse]
    by_cases hcj : c.id = j
    · rw [if_pos hcj]
      by_cases hij : i = j
      · have hci : c.id = i := hcj.trans hij.symm
        simp [choiceCount, hci, hij]
      · have hci : c.id ≠ i := fun h => hij (h.symm.trans hcj)
        simp [choiceCount, hci, hij]
    · rw [if_neg hcj]
      by_cases hci : c.id = i
      · have hij : i ≠ j := fun h => hcj (hci.trans h)
        simp [choiceCount, hci, hij]
      · simp only [choiceCount, if_neg hci]
        exact ih

theorem choiceCount_foldl (rs : List TallyResponseRow)
    (cs : List ChoiceResultViewModel) (i : Nat) :
    choiceCount (rs.foldl (fun vm r => addSurveyResponse vm r.choice) cs) i
      = (choiceCount cs i).map (· + rs.countP (fun r => r.choice == i)) := by
  induction rs generalizing cs with
  | nil => cases h : choiceCount cs i <;> simp [h]
  | cons r rest ih =>
    rw [List.foldl_cons, ih, choiceCount_addSurveyResponse]
    by_cases hir : i = r.choice
    · rw [if_pos hir]
      cases h : choiceCount cs i with
      | none => simp [h]
      | some a =>
        simp only [h, Option.map_some', List.countP_cons, hir, beq_self_eq_true,
          if_true, Option.some.injEq]
        omega
    · rw [if_neg hir]
      cases h : choiceCount cs i with
      | none => simp [h]
      | some a =>
        have hir' : r.choice ≠ i := fun h => hir h.symm
        have hbeq : (r.choice == i) = false := by simp [hir']
        simp only [h, Option.map_some', List.countP_cons, hbeq,
          Bool.false_eq_true, if_false, Option.some.injEq]
        omega

theorem addSurveyResponse_map_pair (cs : List ChoiceResultViewModel) (j : Nat) :
    (addSurveyResponse cs j).map (fun c => (c.id, c.text))
      = cs.map (fun c => (c.id, c.text)) := by
  induction cs with
  | nil => rfl
  | cons c rest ih =>
    by_cases hcj : c.id = j <;> simp [addSurveyResponse, hcj, ih]

theorem foldl_addSurveyResponse_map_pair (rs : List TallyResponseRow)
    (cs : List ChoiceResultViewModel) :
    ((rs.foldl (fun vm r => addSurveyResponse vm r.choice) cs).map
        (fun c => (c.id, c.text)))
      = cs.map (fun c => (c.id, c.text)) := by
  induction rs generalizing cs with
  | nil => rfl
  | cons r rest ih => rw [List.foldl_cons, ih, addSurveyResponse_map_pair]

theorem choiceCount_initial (cs : List ChoiceRow) (c : ChoiceRow)
    (hnd : (cs.map ChoiceRow.id).Nodup) (hc : c ∈ cs) :
    choiceCount (cs.map (fun d => ChoiceResultViewModel.mk d.id d.text 0)) c.id
      = some 0 := by
  induction cs with
  | nil => cases hc
  | cons d rest ih =>
    rw [List.map_cons, List.nodup_cons] at hnd
    rcases List.mem_cons.mp hc with rfl | hc'
    · simp [choiceCount]
    · have hne : d.id ≠ c.id := fun h =>
        hnd.1 (by rw [h]; exact List.mem_map_of_mem _ hc')
      simp only [List.map_cons, choiceCount, if_neg hne]
      exact ih hnd.2 hc'

theorem addSurveyResponse_no_match (cs : List ChoiceResultViewModel) (j : Nat)
    (h : ∀ c ∈ cs, c.id ≠ j) :
    addSurveyResponse cs j = cs := by
  induction cs with
  | nil => rfl
  | cons c rest ih =>
    simp [addSurveyResponse, h c (by simp),
      ih (fun c' hc' => h c' (by simp [hc']))]

theorem countP_filter_question (responses : List TallyResponseRow)
    (qi ci : Nat) :
    ((responses.filter (fun r => r.question == qi)).countP
        (fun r => r.choice == ci))
      = responses.countP (fun r => r.question == qi && r.choice == ci) := by
  rw [List.countP_filter]
  exact List.countP_congr (fun r _ => by
    constructor <;> intro h <;> simpa [Bool.and_comm] using h)

theorem surveyAssignmentPost_persisted (choicesDb : List Nat) (aid : Nat)
    (qs : List Nat) (post : Nat → Option Nat) :
    (surveyAssignmentPost choicesDb aid qs post).persisted = []
    ∨ ((surveyAssignmentPost choicesDb aid qs post).persisted
          = qs.map (submittedRow aid post)
        ∧ ∀ q ∈ qs, ∃ c, post q = some c ∧ c ∈ choicesDb) := by
  unfold surveyAssignmentPost
  cases hloop : responseLoop choicesDb aid post qs [] with
  | completed rows err =>
    cases err with
    | false =>
      obtain ⟨hall, hrows⟩ := responseLoop_completed_false_inv _ _ _ _ _ _ hloop
      right
      exact ⟨by simpa using hrows, hall⟩
    | true => left; rfl
  | raised rows => left; rfl

end SurveyApp

open SurveyApp

/-- C1: for every response submission, after the request completes either
every question of the assignment's survey has exactly one persisted
`SurveyResponse` row, or zero rows persist; in particular a submission
omitting an answer to some question persists no rows.  (The survey's
question rows have pairwise distinct ids, hence the `Nodup`
hypothesis.) -/
theorem response_submission_atomicity (choicesDb : List Nat) (aid : Nat)
    (qs : List Nat) (post : Nat → Option Nat) (hnd : qs.Nodup) :
    ((∀ q ∈ qs,
        ((surveyAssignmentPost choicesDb aid qs post).persisted.filter
          (fun r => r.question == q)).length = 1)
      ∨ (surveyAssignmentPost choicesDb aid qs post).persisted = [])
    ∧ ((∃ q ∈ qs, post q = none) →
        (surveyAssignmentPost choicesDb aid qs post).persisted = []) := by
  rcases surveyAssignmentPost_persisted choicesDb aid qs post with hp | ⟨hp, hall⟩
  · exact ⟨Or.inr hp, fun _ => hp⟩
  · constructor
    · left
      intro q hq
      rw [hp, List.filter_map, List.length_map, ← List.countP_eq_length_filter]
      exact List.count_eq_one_of_mem hnd hq
    · rintro ⟨q, hq, hnone⟩
      obtain ⟨c, hc, -⟩ := hall q hq
      rw [hnone] at hc
      cases hc

/-- Witness for C1 at a concrete submission: questions `[5, 6]`, where
question 6 has no submitted answer, so zero rows persist. -/
theorem response_submission_atomicity_witness :
    ((∀ q ∈ [5, 6],
        ((surveyAssignmentPost [1, 2] 0 [5, 6]
            (fun q => if q = 5 then some 1 else none)).persisted.filter
          (fun r => r.question == q)).length = 1)
      ∨ (surveyAssignmentPost [1, 2] 0 [5, 6]
          (fun q => if q = 5 then some 1 else none)).persisted = [])
    ∧ ((∃ q ∈ [5, 6], (fun q => if q = 5 then some 1 else none) q = none) →
        (surveyAssignmentPost [1, 2] 0 [5, 6]
          (fun q => if q = 5 then some 1 else none)).persisted = []) :=
  response_submission_atomicity [1, 2] 0 [5, 6]
    (fun q => if q = 5 then some 1 else none) (by decide)

/-- C7: the per-question loop walks the questions in list order and, at
the first question with no submitted choice (all earlier ones answered
with existing choices), produces the single validation-failure outcome;
the questions after that point are never examined: the result does not
depend on them. -/
theorem response_loop_short_circuits (choicesDb : List Nat) (aid : Nat)
    (post : Nat → Option Nat) (qs₁ : List Nat) (q : Nat) (qs₂ : List Nat)
    (h₁ : ∀ q' ∈ qs₁, ∃ c, post q' = some c ∧ c ∈ choicesDb)
    (hq : post q = none) :
    (surveyAssignmentPost choicesDb aid (qs₁ ++ q :: qs₂) post).outcome
        = .renderAssignmentForm
    ∧ (surveyAssignmentPost choicesDb aid (qs₁ ++ q :: qs₂) post).persisted = []
    ∧ ∀ rest : List Nat,
        surveyAssignmentPost choicesDb aid (qs₁ ++ q :: rest) post
          = surveyAssignmentPost choicesDb aid (qs₁ ++ q :: qs₂) post := by
  have hrun : ∀ rest : List Nat,
      surveyAssignmentPost choicesDb aid (qs₁ ++ q :: rest) post
        = ⟨[], .renderAssignmentForm⟩ := by
    intro rest
    unfold surveyAssignmentPost
    rw [responseLoop_break choicesDb aid post qs₁ q rest [] h₁ hq]
  exact ⟨by rw [hrun], by rw [hrun], fun rest => by rw [hrun, hrun]⟩

/-- Witness for C7 at a concrete submission: question 3 answered,
question 4 unanswered, question 5 behind it. -/
theorem response_loop_short_circuits_witness :
    (surveyAssignmentPost [1] 0 ([3] ++ 4 :: [5])
        (fun n => if n = 3 then some 1 else none)).outcome
        = .renderAssignmentForm
    ∧ (surveyAssignmentPost [1] 0 ([3] ++ 4 :: [5])
        (fun n => if n = 3 then some 1 else none)).persisted = []
    ∧ ∀ rest : List Nat,
        surveyAssignmentPost [1] 0 ([3] ++ 4 :: rest)
            (fun n => if n = 3 then some 1 else none)
          = surveyAssignmentPost [1] 0 ([3] ++ 4 :: [5])
              (fun n => if n = 3 then some 1 else none) :=
  response_loop_short_circuits [1] 0 (fun n => if n = 3 then some 1 else none)
    [3] 4 [5] (by decide) (by decide)

/-- C9 counterexample: a submission whose only question is answered with
the nonexistent choice id 99.  The claim says the outcome is a not-found
response; the code catches the `Http404` with its bare `except:`, rolls
back, and redirects to the profile. -/
theorem missing_choice_counterexample :
    (surveyAssignmentPost [1, 2] 5 [10]
        (fun q => if q = 10 then some 99 else none)).outcome
      = SubmitOutcome.redirectProfile
    ∧ (surveyAssignmentPost [1, 2] 5 [10]
        (fun q => if q = 10 then some 99 else none)).outcome
      ≠ SubmitOutcome.notFound := by
  exact ⟨rfl, by decide⟩

/-- C9 amended: for every response submission whose first failing
question references a nonexistent choice id (all earlier questions
answered with existing choices), the `Http404` raised by the choice
lookup is swallowed by the bare `except:`; the savepoint is rolled back
— zero rows persist — and the request redirects to the profile, the same
outcome as success, not a not-found response. -/
theorem missing_choice_rolls_back_and_redirects (choicesDb : List Nat)
    (aid : Nat) (post : Nat → Option Nat) (qs₁ : List Nat) (q c : Nat)
    (qs₂ : List Nat)
    (h₁ : ∀ q' ∈ qs₁, ∃ c', post q' = some c' ∧ c' ∈ choicesDb)
    (hq : post q = some c) (hc : c ∉ choicesDb) :
    surveyAssignmentPost choicesDb aid (qs₁ ++ q :: qs₂) post
      = ⟨[], .redirectProfile⟩ := by
  unfold surveyAssignmentPost
  rw [responseLoop_raise choicesDb aid post qs₁ q c qs₂ [] h₁ hq hc]

/-- Witness for the amended C9 at a concrete submission: choice id 99
does not exist. -/
theorem missing_choice_rolls_back_and_redirects_witness :
    surveyAssignmentPost [1, 2] 5 ([] ++ 10 :: [])
        (fun q => if q = 10 then some 99 else none)
      = ⟨[], .redirectProfile⟩ :=
  missing_choice_rolls_back_and_redirects [1, 2] 5
    (fun q => if q = 10 then some 99 else none) [] 10 99 []
    (by decide) (by decide) (by decide)

/-- C2: the claim says a valid registration persists an inactive user
(`isActive = false`) and only a successful confirmation activates it.
The code assigns `user.is_valid`, which is not a field of Django's
`User` model, so `save()` persists the model default `is_active = true`:
the user row is active from creation, and confirmation (here with a
token the tokenizer accepts) saves the row unchanged — still active,
never having been inactive.  Evaluated at the failing input, a valid
registration form for "alice" persisted as user id 1. -/
theorem registration_leaves_user_active :
    registerPost ⟨"alice", "alice@example.com", "p4ssw0rd", "p4ssw0rd"⟩ 1
      = RegisterOutcome.confirmationSent ⟨1, "alice@example.com", true⟩
    ∧ confirmRegistrationGet (fun _ _ => true)
        [⟨1, "alice@example.com", true⟩] 1 "sometoken"
      = ConfirmOutcome.rendered true (some ⟨1, "alice@example.com", true⟩) :=
  ⟨rfl, rfl⟩

/-- C8: the claim says an invalid token and an unknown user id produce
the same generic confirmation-error outcome.  The code's
`User.objects.get(pk=user_id)` raises an uncaught `User.DoesNotExist`
for an unknown id (the subsequent `if user` guard is unreachable dead
code for that case), while an invalid token renders the generic error
page: the two failure outcomes differ.  Evaluated at user id 7 against
an empty user table versus a one-user table with a rejecting
tokenizer. -/
theorem confirm_failure_outcomes_differ :
    confirmRegistrationGet (fun _ _ => false) [] 7 "sometoken"
      = ConfirmOutcome.unhandledException
    ∧ confirmRegistrationGet (fun _ _ => false)
        [⟨7, "u@example.com", true⟩] 7 "sometoken"
      = ConfirmOutcome.rendered false none
    ∧ ConfirmOutcome.unhandledException ≠ ConfirmOutcome.rendered false none :=
  ⟨rfl, rfl, by decide⟩

/-- C5: a survey-creation submission with a missing/empty title,
question list, or assignee list creates no Survey, Question, Choice or
SurveyAssignment row, and the response carries the field-level error
flag for exactly the missing fields. -/
theorem create_validation_no_rows (req : SurveyCreateRequest)
    (h : req.title = "" ∨ req.questions = [] ∨ req.assignees = []) :
    (surveyCreatePost req).createdSurveyTitles = []
    ∧ (surveyCreatePost req).createdQuestions = []
    ∧ (surveyCreatePost req).createdAssignments = []
    ∧ (surveyCreatePost req).response
        = .renderErrors (req.title == "") req.questions.isEmpty
            req.assignees.isEmpty := by
  have hcond :
      (req.title == "" || req.questions.isEmpty || req.assignees.isEmpty)
        = true := by
    rcases h with h | h | h <;> simp [h]
  simp [surveyCreatePost, hcond]

/-- Witness for C5 at a concrete submission missing all three required
fields. -/
theorem create_validation_no_rows_witness :
    (surveyCreatePost ⟨"", [], [], []⟩).createdSurveyTitles = []
    ∧ (surveyCreatePost ⟨"", [], [], []⟩).createdQuestions = []
    ∧ (surveyCreatePost ⟨"", [], [], []⟩).createdAssignments = []
    ∧ (surveyCreatePost ⟨"", [], [], []⟩).response
        = .renderErrors (("" : String) == "") ([] : List QuestionData).isEmpty
            ([] : List Nat).isEmpty :=
  create_validation_no_rows ⟨"", [], [], []⟩ (Or.inl rfl)

/-- C6: a successful survey creation redirects to the profile, creates
exactly one Question row per submitted question object, and each
Question's Choice rows carry the submitted choice texts in submitted
order (likewise the question texts, in order). -/
theorem create_success_question_choice_rows (req : SurveyCreateRequest)
    (ht : req.title ≠ "") (hq : req.questions ≠ []) (ha : req.assignees ≠ []) :
    (surveyCreatePost req).response = .redirectProfile
    ∧ (surveyCreatePost req).createdQuestions.length = req.questions.length
    ∧ (surveyCreatePost req).createdQuestions.map Prod.fst
        = req.questions.map QuestionData.text
    ∧ (surveyCreatePost req).createdQuestions.map Prod.snd
        = req.questions.map QuestionData.choices := by
  have hcond :
      (req.title == "" || req.questions.isEmpty || req.assignees.isEmpty)
        = false := by
    simp [ht, hq, ha]
  simp [surveyCreatePost, hcond]

/-- Witness for C6 at a concrete valid submission: one question with two
choices. -/
theorem create_success_question_choice_rows_witness :
    (surveyCreatePost ⟨"T", [⟨"Q1", ["A", "B"]⟩], [1], []⟩).response
        = .redirectProfile
    ∧ (surveyCreatePost ⟨"T", [⟨"Q1", ["A", "B"]⟩], [1], []⟩).createdQuestions.length
        = [QuestionData.mk "Q1" ["A", "B"]].length
    ∧ (surveyCreatePost ⟨"T", [⟨"Q1", ["A", "B"]⟩], [1], []⟩).createdQuestions.map Prod.fst
        = [QuestionData.mk "Q1" ["A", "B"]].map QuestionData.text
    ∧ (surveyCreatePost ⟨"T", [⟨"Q1", ["A", "B"]⟩], [1], []⟩).createdQuestions.map Prod.snd
        = [QuestionData.mk "Q1" ["A", "B"]].map QuestionData.choices :=
  create_success_question_choice_rows ⟨"T", [⟨"Q1", ["A", "B"]⟩], [1], []⟩
    (by decide) (by decide) (by decide)

/-- C3: for every survey question, the results view's tally assigns to
each defined choice of that question a count equal to the number of
`SurveyResponse` rows for that question whose choice id equals that
choice's id.  (A question's choice rows have pairwise distinct ids,
hence the `Nodup` hypothesis.) -/
theorem tally_choice_counts (qs : List QuestionRec)
    (responses : List TallyResponseRow) (q : QuestionRec) (hq : q ∈ qs)
    (hnd : (q.choices.map ChoiceRow.id).Nodup) (c : ChoiceRow)
    (hc : c ∈ q.choices) :
    tallyQuestion q responses ∈ surveyResultsGet qs responses
    ∧ choiceCount (tallyQuestion q responses).choices c.id
        = some (responses.countP
            (fun r => r.question == q.id && r.choice == c.id)) := by
  refine ⟨List.mem_map_of_mem _ hq, ?_⟩
  rw [tallyQuestion_choices, choiceCount_foldl,
    choiceCount_initial q.choices c hnd hc, Option.map_some',
    countP_filter_question]
  simp

/-- Witness for C3 at a concrete survey: one question (id 1) with
choices 1 and 2, and three responses of which two pick choice 1. -/
theorem tally_choice_counts_witness :
    tallyQuestion ⟨1, "Q", [⟨1, "A"⟩, ⟨2, "B"⟩]⟩ [⟨1, 1⟩, ⟨1, 2⟩, ⟨1, 1⟩]
        ∈ surveyResultsGet [⟨1, "Q", [⟨1, "A"⟩, ⟨2, "B"⟩]⟩]
            [⟨1, 1⟩, ⟨1, 2⟩, ⟨1, 1⟩]
    ∧ choiceCount
        (tallyQuestion ⟨1, "Q", [⟨1, "A"⟩, ⟨2, "B"⟩]⟩
          [⟨1, 1⟩, ⟨1, 2⟩, ⟨1, 1⟩]).choices (ChoiceRow.mk 1 "A").id
        = some (([⟨1, 1⟩, ⟨1, 2⟩, ⟨1, 1⟩] : List TallyResponseRow).countP
            (fun r => r.question == (QuestionRec.mk 1 "Q" [⟨1, "A"⟩, ⟨2, "B"⟩]).id
              && r.choice == (ChoiceRow.mk 1 "A").id)) :=
  tally_choice_counts [⟨1, "Q", [⟨1, "A"⟩, ⟨2, "B"⟩]⟩] [⟨1, 1⟩, ⟨1, 2⟩, ⟨1, 1⟩]
    ⟨1, "Q", [⟨1, "A"⟩, ⟨2, "B"⟩]⟩ (by decide) (by decide) ⟨1, "A"⟩ (by decide)

/-- C4: every choice defined for a question appears in the tally output
for that question — the output choice entries carry exactly the defined
choice ids and texts, in order — and a choice with no matching response
rows appears with a response count of 0 rather than being omitted. -/
theorem tally_completeness (qs : List QuestionRec)
    (responses : List TallyResponseRow) (q : QuestionRec) (hq : q ∈ qs)
    (hnd : (q.choices.map ChoiceRow.id).Nodup) :
    tallyQuestion q responses ∈ surveyResultsGet qs responses
    ∧ (tallyQuestion q responses).choices.map (fun v => (v.id, v.text))
        = q.choices.map (fun c => (c.id, c.text))
    ∧ ∀ c ∈ q.choices,
        responses.countP (fun r => r.question == q.id && r.choice == c.id) = 0 →
        choiceCount (tallyQuestion q responses).choices c.id = some 0 := by
  refine ⟨List.mem_map_of_mem _ hq, ?_, ?_⟩
  · rw [tallyQuestion_choices, foldl_addSurveyResponse_map_pair, List.map_map]
    rfl
  · intro c hc h0
    rw [tallyQuestion_choices, choiceCount_foldl,
      choiceCount_initial q.choices c hnd hc, Option.map_some',
      countP_filter_question, h0]

/-- Witness for C4 at a concrete survey: choice 2 receives no responses
yet appears with count 0. -/
theorem tally_completeness_witness :
    tallyQuestion ⟨1, "Q", [⟨1, "A"⟩, ⟨2, "B"⟩]⟩ [⟨1, 1⟩]
        ∈ surveyResultsGet [⟨1, "Q", [⟨1, "A"⟩, ⟨2, "B"⟩]⟩] [⟨1, 1⟩]
    ∧ (tallyQuestion ⟨1, "Q", [⟨1, "A"⟩, ⟨2, "B"⟩]⟩ [⟨1, 1⟩]).choices.map
          (fun v => (v.id, v.text))
        = (QuestionRec.mk 1 "Q" [⟨1, "A"⟩, ⟨2, "B"⟩]).choices.map
            (fun c => (c.id, c.text))
    ∧ ∀ c ∈ (QuestionRec.mk 1 "Q" [⟨1, "A"⟩, ⟨2, "B"⟩]).choices,
        ([⟨1, 1⟩] : List TallyResponseRow).countP
            (fun r => r.question == (QuestionRec.mk 1 "Q" [⟨1, "A"⟩, ⟨2, "B"⟩]).id
              && r.choice == c.id) = 0 →
        choiceCount
          (tallyQuestion ⟨1, "Q", [⟨1, "A"⟩, ⟨2, "B"⟩]⟩ [⟨1, 1⟩]).choices c.id
          = some 0 :=
  tally_completeness [⟨1, "Q", [⟨1, "A"⟩, ⟨2, "B"⟩]⟩] [⟨1, 1⟩]
    ⟨1, "Q", [⟨1, "A"⟩, ⟨2, "B"⟩]⟩ (by decide) (by decide)

/-- C10: a `SurveyResponse` row for a question whose choice id is not
among the question's defined choice ids is silently ignored by the
tally: adding such a row changes nothing in the question's tally output
(every choice's response count in particular), and no error arises —
`add_survey_response` simply finds no matching view model. -/
theorem tally_unknown_choice_ignored (q : QuestionRec)
    (responses : List TallyResponseRow) (r : TallyResponseRow)
    (hrq : r.question = q.id)
    (hr : ∀ c ∈ q.choices, c.id ≠ r.choice) :
    tallyQuestion q (responses ++ [r]) = tallyQuestion q responses := by
  have hfilter : (responses ++ [r]).filter (fun x => x.question == q.id)
      = responses.filter (fun x => x.question == q.id) ++ [r] := by
    simp [List.filter_append, hrq]
  have h1 : (tallyQuestion q (responses ++ [r])).choices
      = addSurveyResponse (tallyQuestion q responses).choices r.choice := by
    rw [tallyQuestion_choices, tallyQuestion_choices, hfilter,
      List.foldl_append]
    rfl
  have hids : ∀ c ∈ (tallyQuestion q responses).choices, c.id ≠ r.choice := by
    intro c hcmem
    have hpair : (c.id, c.text)
        ∈ (tallyQuestion q responses).choices.map (fun v => (v.id, v.text)) :=
      List.mem_map_of_mem _ hcmem
    rw [tallyQuestion_choices, foldl_addSurveyResponse_map_pair,
      List.map_map] at hpair
    obtain ⟨d, hd, hde⟩ := List.mem_map.mp hpair
    have hdc : d.id = c.id := congrArg Prod.fst hde
    exact hdc ▸ hr d hd
  calc tallyQuestion q (responses ++ [r])
      = ⟨q.text, (tallyQuestion q (responses ++ [r])).choices⟩ := rfl
    _ = ⟨q.text, (tallyQuestion q responses).choices⟩ := by
          rw [h1, addSurveyResponse_no_match _ _ hids]
    _ = tallyQuestion q responses := rfl

/-- Witness for C10 at a concrete question: response choice id 99 is
not a defined choice of the question. -/
theorem tally_unknown_choice_ignored_witness :
    tallyQuestion ⟨1, "Q", [⟨1, "A"⟩]⟩ ([⟨1, 1⟩] ++ [⟨1, 99⟩])
      = tallyQuestion ⟨1, "Q", [⟨1, "A"⟩]⟩ [⟨1, 1⟩] :=
  tally_unknown_choice_ignored ⟨1, "Q", [⟨1, "A"⟩]⟩ [⟨1, 1⟩] ⟨1, 99⟩
    (by decide) (by decide)
